import Mathlib

/-
  Verification of the diet-plan backend (src/backend/app.py).

  The Python source is shallowly embedded: numbers are modelled by exact
  rationals (ℚ), the Python built-in round (round-half-to-even) by pyRound,
  str.lower by pyLower, and the randomness of random.choice by an explicit
  index stream (Nat → Nat) consumed one call at a time in source order.
-/

/-- The Python built-in round to the nearest integer, ties going to the even
neighbour (round-half-to-even), modelled on ℚ. -/
def pyRound (q : ℚ) : ℤ :=
  if q - ⌊q⌋ < 1 / 2 then ⌊q⌋
  else if 1 / 2 < q - ⌊q⌋ then ⌊q⌋ + 1
  else if ⌊q⌋ % 2 = 0 then ⌊q⌋ else ⌊q⌋ + 1

/-- Python round(x, 1): round to one decimal place. -/
def pyRound1 (q : ℚ) : ℚ := (pyRound (q * 10) : ℚ) / 10

/-- Python str.lower, modelled character by character. -/
def pyLower (s : String) : String := ⟨s.data.map Char.toLower⟩

/-- DietPlanGenerator.calculate_bmr (app.py lines 32-38). -/
def calculate_bmr (weight height age : ℚ) (gender : String) : ℤ :=
  if pyLower gender = "male" then
    pyRound (88.362 + 13.397 * weight + 4.799 * height - 5.677 * age)
  else
    pyRound (447.593 + 9.247 * weight + 3.098 * height - 4.330 * age)

/-- DietPlanGenerator.calculate_bmi (app.py lines 40-44). -/
def calculate_bmi (weight height : ℚ) : ℚ :=
  pyRound1 (weight / (height / 100) ^ 2)

/-- DietPlanGenerator.get_bmi_category (app.py lines 46-55): category and
advice string. -/
def get_bmi_category (bmi : ℚ) : String × String :=
  if bmi < 18.5 then
    ("Underweight", "Focus on healthy weight gain with nutrient-dense foods")
  else if bmi < 25 then
    ("Normal Weight", "Maintain current weight with balanced nutrition")
  else if bmi < 30 then
    ("Overweight", "Focus on gradual weight loss through caloric deficit")
  else
    ("Obese", "Consult healthcare provider, focus on sustainable weight loss")

/-- daily_calories = round(bmr * 1.5) (app.py line 71). -/
def daily_calories_of (bmr : ℤ) : ℤ := pyRound ((bmr : ℚ) * 1.5)

/-- A validated request profile: the values of the seven required fields
of /api/generate-diet-plan.  smoking and drinking are the raw strings the
client sent, as in the source. -/
structure UserData where
  name : String
  age : ℤ
  gender : String
  weight : ℚ
  height : ℚ
  smoking : String
  drinking : String
deriving DecidableEq

/-- One meal slot: dict with keys meal and calories (app.py lines 224-245). -/
structure Meal where
  meal : String
  calories : ℤ
deriving DecidableEq

/-- The dict returned by generate_daily_meals: five fixed slots. -/
structure DailyMeals where
  breakfast : Meal
  morning_snack : Meal
  lunch : Meal
  afternoon_snack : Meal
  dinner : Meal
deriving DecidableEq

/-- The five slots of a day, with their dict keys, in source order. -/
def DailyMeals.slots (m : DailyMeals) : List (String × Meal) :=
  [("breakfast", m.breakfast), ("morning_snack", m.morning_snack),
   ("lunch", m.lunch), ("afternoon_snack", m.afternoon_snack),
   ("dinner", m.dinner)]

def breakfast_options : List String :=
  ["Oatmeal with banana and almonds",
   "Greek yogurt with berries and granola",
   "Scrambled eggs with whole grain toast",
   "Protein smoothie with spinach and fruits"]

def lunch_options : List String :=
  ["Grilled chicken with quinoa and vegetables",
   "Lentil curry with brown rice",
   "Fish with sweet potato and broccoli",
   "Chickpea salad with mixed greens"]

def dinner_options : List String :=
  ["Lean beef with roasted vegetables",
   "Salmon with asparagus and wild rice",
   "Turkey meatballs with zucchini noodles",
   "Tofu stir-fry with brown rice"]

def snack_options : List String :=
  ["Apple with almond butter",
   "Mixed nuts and dried fruits",
   "Greek yogurt with honey",
   "Protein bar or shake"]

/-- random.choice modelled by an index stream: the k-th call of a run draws
the element at index (ch k mod length). -/
def choiceAt (ch : Nat → Nat) (k : Nat) (options : List String) : String :=
  options.getD (ch k % options.length) ""

/-- DietPlanGenerator.generate_daily_meals (app.py lines 183-245); the five
random.choice calls are numbered 0..4 in the evaluation order of the
returned dict literal. -/
def generate_daily_meals (daily_calories : ℤ) (ch : Nat → Nat) : DailyMeals :=
  { breakfast := ⟨choiceAt ch 0 breakfast_options, pyRound ((daily_calories : ℚ) * 0.25)⟩
    morning_snack := ⟨choiceAt ch 1 snack_options, pyRound ((daily_calories : ℚ) * 0.10)⟩
    lunch := ⟨choiceAt ch 2 lunch_options, pyRound ((daily_calories : ℚ) * 0.30)⟩
    afternoon_snack := ⟨choiceAt ch 3 snack_options, pyRound ((daily_calories : ℚ) * 0.10)⟩
    dinner := ⟨choiceAt ch 4 dinner_options, pyRound ((daily_calories : ℚ) * 0.25)⟩ }

/-- The total of the five slot calorie values of a day. -/
def mealCaloriesSum (m : DailyMeals) : ℤ :=
  m.breakfast.calories + m.morning_snack.calories + m.lunch.calories
    + m.afternoon_snack.calories + m.dinner.calories

/-- The five calorie values of a day, as a tuple. -/
def dayCalories (m : DailyMeals) : ℤ × ℤ × ℤ × ℤ × ℤ :=
  (m.breakfast.calories, m.morning_snack.calories, m.lunch.calories,
   m.afternoon_snack.calories, m.dinner.calories)

def smoking_warning : String :=
  "Smoking reduces oxygen delivery to muscles. Consider quitting for better workout performance and recovery."

def smoking_advice : String :=
  "Increase Vitamin C intake (citrus fruits, bell peppers) to combat oxidative stress from smoking."

def drinking_warning : String :=
  "Alcohol can interfere with muscle protein synthesis and recovery. Limit intake, especially around workout times."

def drinking_advice : String :=
  "If you drink, ensure adequate hydration and consider B-complex vitamins to support metabolism."

def young_age_info : String :=
  "Focus on building healthy eating habits early. Your metabolism is naturally higher at this age."

def older_age_info : String :=
  "Prioritize protein intake and calcium for bone health. Consider adding resistance training."

/-- A dict with keys type and message (app.py lines 252-282). -/
structure Recommendation where
  type : String
  message : String
deriving DecidableEq

/-- DietPlanGenerator.get_lifestyle_recommendations (app.py lines 247-284):
the successive appends are modelled by list concatenation in source order. -/
def get_lifestyle_recommendations (ud : UserData) : List Recommendation :=
  (if ud.smoking = "yes" then
     [⟨"warning", smoking_warning⟩, ⟨"advice", smoking_advice⟩]
   else []) ++
  (if ud.drinking = "yes" then
     [⟨"warning", drinking_warning⟩, ⟨"advice", drinking_advice⟩]
   else []) ++
  (if ud.age < 25 then [⟨"info", young_age_info⟩]
   else if 40 < ud.age then [⟨"info", older_age_info⟩]
   else [])

/-- protein_grams = round(daily_calories * 0.25 / 4) (app.py lines 137, 141). -/
def protein_grams (daily_calories : ℤ) : ℤ := pyRound ((daily_calories : ℚ) * 0.25 / 4)

/-- carb_grams = round(daily_calories * 0.45 / 4) (app.py lines 138, 142). -/
def carb_grams (daily_calories : ℤ) : ℤ := pyRound ((daily_calories : ℚ) * 0.45 / 4)

/-- fat_grams = round(daily_calories * 0.30 / 9) (app.py lines 139, 143). -/
def fat_grams (daily_calories : ℤ) : ℤ := pyRound ((daily_calories : ℚ) * 0.30 / 9)

/-- The macros dict of user_info (app.py lines 158-162). -/
structure Macros where
  protein : String
  carbs : String
  fats : String
deriving DecidableEq

/-- The user_info dict of the fallback plan (app.py lines 149-163). -/
structure UserInfo where
  name : String
  age : ℤ
  gender : String
  weight : ℚ
  height : ℚ
  bmi : ℚ
  bmi_category : String
  daily_calories : ℤ
  macros : Macros
deriving DecidableEq

def general_tips : List String :=
  ["Drink 8-10 glasses of water daily",
   "Eat every 3-4 hours to maintain metabolism",
   "Include protein in every meal for muscle recovery",
   "Choose complex carbohydrates over simple sugars",
   "Eat your largest meal 2-3 hours before workouts",
   "Have a post-workout meal within 30 minutes",
   "Limit processed foods and added sugars"]

def days : List String :=
  ["Monday", "Tuesday", "Wednesday", "Thursday", "Friday", "Saturday", "Sunday"]

/-- The dict returned by generate_fallback_plan. -/
structure MealPlan where
  user_info : UserInfo
  weekly_plan : List (String × DailyMeals)
  recommendations : List Recommendation
  general_tips : List String
deriving DecidableEq

/-- The for-loop of app.py lines 178-179: one generate_daily_meals call per
day; each day consumes the next five values of the random stream. -/
def build_weekly_plan (daily_calories : ℤ) (ch : Nat → Nat) :
    List String → Nat → List (String × DailyMeals)
  | [], _ => []
  | day :: rest, off =>
      (day, generate_daily_meals daily_calories (fun k => ch (off + k)))
        :: build_weekly_plan daily_calories ch rest (off + 5)

/-- DietPlanGenerator.generate_fallback_plan (app.py lines 133-181). -/
def generate_fallback_plan (ud : UserData) (bmr : ℤ) (bmi : ℚ)
    (bmi_category : String) (daily_calories : ℤ) (ch : Nat → Nat) : MealPlan :=
  { user_info :=
      { name := ud.name, age := ud.age, gender := ud.gender,
        weight := ud.weight, height := ud.height, bmi := bmi,
        bmi_category := bmi_category, daily_calories := daily_calories,
        macros := ⟨toString (protein_grams daily_calories) ++ "g",
                   toString (carb_grams daily_calories) ++ "g",
                   toString (fat_grams daily_calories) ++ "g"⟩ }
    weekly_plan := build_weekly_plan daily_calories ch days 0
    recommendations := get_lifestyle_recommendations ud
    general_tips := general_tips }

/-- A decoded JSON body of the Hugging Face response: a dict carrying
estimated_time (the model is still loading), a list of generations (the
generated_text of each item), or anything else. -/
inductive HFResponseBody where
  | loading (estimated_time : ℚ)
  | generations (texts : List String)
  | other (raw : String)
deriving DecidableEq

/-- The outcome of the single requests.post call: an exception, or a
response with a status code and a decoded body. -/
inductive HFOutcome where
  | exception
  | response (status : ℤ) (body : HFResponseBody)
deriving DecidableEq

/-- Python str() applied to a decoded body, for the best-effort branch of
app.py line 120. -/
def stringifyBody : HFResponseBody → String
  | .loading t => toString t
  | .generations texts => String.intercalate ", " texts
  | .other raw => raw

/-- The user_info dict of format_ai_response (app.py lines 292-297). -/
structure AIUserInfo where
  name : String
  bmi : ℚ
  bmi_category : String
  daily_calories : ℤ
deriving DecidableEq

/-- The dict returned by format_ai_response (app.py lines 286-300). -/
structure AIResult where
  user_info : AIUserInfo
  ai_insights : String
  structured_plan : MealPlan
deriving DecidableEq

/-- The value returned by generate_ai_diet_plan: either the bare fallback
plan, or the AI-augmented dict with an ai_insights text field. -/
inductive PlanResult where
  | fallbackOnly (plan : MealPlan)
  | withAI (r : AIResult)
deriving DecidableEq

/-- DietPlanGenerator.format_ai_response (app.py lines 286-300). -/
def format_ai_response (ud : UserData) (ai_text : String) (bmr : ℤ) (bmi : ℚ)
    (bmi_category : String) (daily_calories : ℤ) (ch : Nat → Nat) : AIResult :=
  { user_info := ⟨ud.name, bmi, bmi_category, daily_calories⟩
    ai_insights := if ai_text.length > 500 then ai_text.take 500 ++ "..." else ai_text
    structured_plan := generate_fallback_plan ud bmr bmi bmi_category daily_calories ch }

/-- DietPlanGenerator.generate_ai_diet_plan (app.py lines 57-131).  The
single requests.post call reads the head of the outcome stream; the rest of
the stream is never consulted (there is no retry). -/
def generate_ai_diet_plan (ud : UserData) (ch : Nat → Nat)
    (outcomes : Nat → HFOutcome) : PlanResult :=
  let bmr := calculate_bmr ud.weight ud.height (ud.age : ℚ) ud.gender
  let bmi := calculate_bmi ud.weight ud.height
  let bmi_category := (get_bmi_category bmi).1
  let daily_calories := daily_calories_of bmr
  match outcomes 0 with
  | .exception =>
      .fallbackOnly (generate_fallback_plan ud bmr bmi bmi_category daily_calories ch)
  | .response status body =>
      if status = 200 then
        match body with
        | .loading _ =>
            .fallbackOnly (generate_fallback_plan ud bmr bmi bmi_category daily_calories ch)
        | .generations texts =>
            if 0 < texts.length then
              .withAI (format_ai_response ud (texts.headD "") bmr bmi bmi_category daily_calories ch)
            else
              .withAI (format_ai_response ud (stringifyBody body) bmr bmi bmi_category daily_calories ch)
        | .other raw =>
            .withAI (format_ai_response ud raw bmr bmi bmi_category daily_calories ch)
      else
        .fallbackOnly (generate_fallback_plan ud bmr bmi bmi_category daily_calories ch)

def required_fields : List String :=
  ["name", "age", "height", "weight", "gender", "smoking", "drinking"]

/-- The JSON + status pair a route handler returns. -/
structure HTTPResponse where
  status : ℤ
  success : Bool
  error : Option String
  data : Option PlanResult
  message : Option String
deriving DecidableEq

/-- The /api/generate-diet-plan handler (app.py lines 328-359): present is
the key set of the request body, ud the field values used when all required
fields are present.  The loop over required_fields returns on the first
missing field. -/
def generate_diet_plan (present : List String) (ud : UserData)
    (ch : Nat → Nat) (outcomes : Nat → HFOutcome) : HTTPResponse :=
  match required_fields.find? (fun f => ! present.contains f) with
  | some f => ⟨400, false, some ("Missing required field: " ++ f), none, none⟩
  | none => ⟨200, true, none, some (generate_ai_diet_plan ud ch outcomes),
             some "Diet plan generated successfully!"⟩

/-- A sample validated profile, used for concrete evaluations. -/
def sample_user : UserData := ⟨"John", 30, "male", 70, 175, "no", "no"⟩

/-- A fixed random stream: every random.choice takes the first option. -/
def zero_stream : Nat → Nat := fun _ => 0

/-- An outcome stream whose first (and only consulted) element is an
exception raised during the external call. -/
def failed_call : Nat → HFOutcome := fun _ => .exception

/-- pyRound never strays more than one half from its argument. -/
theorem pyRound_close (q : ℚ) : |(pyRound q : ℚ) - q| ≤ 1 / 2 := by
  have h1 : (⌊q⌋ : ℚ) ≤ q := Int.floor_le q
  have h2 : q < ⌊q⌋ + 1 := Int.lt_floor_add_one q
  unfold pyRound
  split_ifs with ha hb hc
  · rw [abs_le]; constructor <;> linarith
  · rw [abs_le]; push_cast; constructor <;> linarith
  · rw [abs_le]
    have ha' := le_of_not_lt ha
    have hb' := le_of_not_lt hb
    constructor <;> linarith
  · rw [abs_le]; push_cast
    have ha' := le_of_not_lt ha
    have hb' := le_of_not_lt hb
    constructor <;> linarith

/-- A modelled random.choice draw is always an element of its option list. -/
theorem choiceAt_mem (ch : Nat → Nat) (k : Nat) (options : List String)
    (h : options ≠ []) : choiceAt ch k options ∈ options := by
  have hl : 0 < options.length := List.length_pos.mpr h
  have hm : ch k % options.length < options.length := Nat.mod_lt _ hl
  unfold choiceAt
  rw [List.getD_eq_getElem?_getD, List.getElem?_eq_getElem hm, Option.getD_some]
  exact List.getElem_mem hm

/-- C1: calculate_bmr uses the male Harris-Benedict coefficients exactly when
the gender string lowercases to male, the female coefficients otherwise, and
rounds to the nearest integer; on the sample profile (70 kg, 175 cm, 30 y,
male) it returns 1696. -/
theorem calculate_bmr_spec :
    (∀ (weight height age : ℚ) (gender : String),
      calculate_bmr weight height age gender =
        if pyLower gender = "male" then
          pyRound (88.362 + 13.397 * weight + 4.799 * height - 5.677 * age)
        else
          pyRound (447.593 + 9.247 * weight + 3.098 * height - 4.330 * age))
    ∧ calculate_bmr 70 175 30 "male" = 1696 :=
  ⟨fun _ _ _ _ => rfl, by
    have h : pyLower "male" = "male" := by decide
    rw [calculate_bmr, if_pos h]
    norm_num [pyRound]⟩

/-- C3: calculate_bmi is the BMI formula rounded to one decimal, and the
classification is closed on the lower bound: 18.5 is Normal Weight, 25 is
Overweight, 30 is Obese, anything below 18.5 is Underweight, and the advice
string is a function of the category. -/
theorem calculate_bmi_spec :
    (∀ weight height : ℚ, 0 < weight → 0 < height →
      calculate_bmi weight height = pyRound1 (weight / (height / 100) ^ 2))
    ∧ (∀ bmi : ℚ, bmi < 18.5 → get_bmi_category bmi =
        ("Underweight", "Focus on healthy weight gain with nutrient-dense foods"))
    ∧ get_bmi_category 18.5 =
        ("Normal Weight", "Maintain current weight with balanced nutrition")
    ∧ get_bmi_category 25 =
        ("Overweight", "Focus on gradual weight loss through caloric deficit")
    ∧ get_bmi_category 30 =
        ("Obese", "Consult healthcare provider, focus on sustainable weight loss")
    ∧ (∀ b1 b2 : ℚ, (get_bmi_category b1).1 = (get_bmi_category b2).1 →
        (get_bmi_category b1).2 = (get_bmi_category b2).2) := by
  refine ⟨fun _ _ _ _ => rfl, ?_, ?_, ?_, ?_, ?_⟩
  · intro bmi h
    rw [get_bmi_category, if_pos h]
  · norm_num [get_bmi_category]
  · norm_num [get_bmi_category]
  · norm_num [get_bmi_category]
  · intro b1 b2
    unfold get_bmi_category
    split_ifs <;> simp_all

/-- Witness for C3 at the sample profile: BMI of 70 kg at 175 cm is 22.9, and
a BMI of 17 is Underweight. -/
theorem calculate_bmi_spec_witness :
    calculate_bmi 70 175 = pyRound1 (70 / ((175 : ℚ) / 100) ^ 2)
    ∧ get_bmi_category 17 =
        ("Underweight", "Focus on healthy weight gain with nutrient-dense foods")
    ∧ calculate_bmi 70 175 = 22.9 :=
  ⟨calculate_bmi_spec.1 70 175 (by norm_num) (by norm_num),
   calculate_bmi_spec.2.1 17 (by norm_num),
   by norm_num [calculate_bmi, pyRound1, pyRound]⟩

/-- C2 counterexample: the sample profile (70 kg, 175 cm, 30 y, male)
produces dailyCalories = 2544, but the five rounded slot shares of a day at
2544 calories sum to 2543, not 2544. -/
theorem daily_meals_sum_not_exact :
    daily_calories_of (calculate_bmr 70 175 30 "male") = 2544
    ∧ mealCaloriesSum (generate_daily_meals 2544 zero_stream) = 2543
    ∧ mealCaloriesSum (generate_daily_meals 2544 zero_stream) ≠ 2544 := by
  have hb : calculate_bmr 70 175 30 "male" = 1696 := by
    have h : pyLower "male" = "male" := by decide
    rw [calculate_bmr, if_pos h]
    norm_num [pyRound]
  have hd : daily_calories_of (calculate_bmr 70 175 30 "male") = 2544 := by
    rw [hb]
    norm_num [daily_calories_of, pyRound]
  have hs : mealCaloriesSum (generate_daily_meals 2544 zero_stream) = 2543 := by
    simp only [mealCaloriesSum, generate_daily_meals]
    norm_num [pyRound]
  exact ⟨hd, hs, by rw [hs]; decide⟩


/-- An integer whose cast is within c + 1/2 in absolute value is within c. -/
theorem int_abs_le_of_rat_le (z c : ℤ) (h : |(z : ℚ)| ≤ (c : ℚ) + 1 / 2) :
    |z| ≤ c := by
  have h1 : ((|z| : ℤ) : ℚ) ≤ (c : ℚ) + 1 / 2 := by
    rw [Int.cast_abs]
    exact h
  have h2 : ((|z| : ℤ) : ℚ) < ((c + 1 : ℤ) : ℚ) := by
    push_cast
    linarith
  have h3 : |z| < c + 1 := by exact_mod_cast h2
  linarith

/-- C2 amended: the five unrounded percentage shares (25, 10, 30, 10, 25
percent) of dailyCalories sum to dailyCalories exactly, and the five rounded
slot calorie values of a generated day sum to dailyCalories up to an absolute
rounding error of at most 2. -/
theorem daily_meals_sum_within_two (d : ℤ) (ch : Nat → Nat) :
    (d : ℚ) * 0.25 + (d : ℚ) * 0.10 + (d : ℚ) * 0.30 + (d : ℚ) * 0.10 + (d : ℚ) * 0.25 = (d : ℚ)
    ∧ |mealCaloriesSum (generate_daily_meals d ch) - d| ≤ 2 := by
  constructor
  · ring
  · have h1 := pyRound_close ((d : ℚ) * 0.25)
    have h2 := pyRound_close ((d : ℚ) * 0.10)
    have h3 := pyRound_close ((d : ℚ) * 0.30)
    rw [abs_le] at h1 h2 h3
    have hsum : ((mealCaloriesSum (generate_daily_meals d ch) : ℤ) : ℚ)
        = (pyRound ((d : ℚ) * 0.25) : ℚ) + (pyRound ((d : ℚ) * 0.10) : ℚ)
          + (pyRound ((d : ℚ) * 0.30) : ℚ) + (pyRound ((d : ℚ) * 0.10) : ℚ)
          + (pyRound ((d : ℚ) * 0.25) : ℚ) := by
      simp only [mealCaloriesSum, generate_daily_meals]
      push_cast
      ring
    have hq : |((mealCaloriesSum (generate_daily_meals d ch) : ℤ) : ℚ) - (d : ℚ)|
        ≤ ((2 : ℤ) : ℚ) + 1 / 2 := by
      rw [hsum, abs_le]
      push_cast
      constructor <;> linarith [h1.1, h1.2, h2.1, h2.2, h3.1, h3.2]
    refine int_abs_le_of_rat_le _ 2 ?_
    push_cast at hq ⊢
    exact hq

/-- C4: dailyCalories is bmr times 1.5 rounded to an integer; the three
macro calorie shares (25, 45, 30 percent) sum exactly to dailyCalories
before rounding; and converting the rounded gram values back at 4 kcal/g for
protein and carbs and 9 kcal/g for fat recovers dailyCalories up to a
rounding tolerance of at most 8 kcal. -/
theorem macro_split_spec :
    (∀ bmr : ℤ, daily_calories_of bmr = pyRound ((bmr : ℚ) * 1.5))
    ∧ (∀ d : ℤ,
        (d : ℚ) * 0.25 + (d : ℚ) * 0.45 + (d : ℚ) * 0.30 = (d : ℚ)
        ∧ |4 * protein_grams d + 4 * carb_grams d + 9 * fat_grams d - d| ≤ 8) := by
  refine ⟨fun _ => rfl, fun d => ⟨by ring, ?_⟩⟩
  have h1 := pyRound_close ((d : ℚ) * 0.25 / 4)
  have h2 := pyRound_close ((d : ℚ) * 0.45 / 4)
  have h3 := pyRound_close ((d : ℚ) * 0.30 / 9)
  rw [abs_le] at h1 h2 h3
  have hq : |((4 * protein_grams d + 4 * carb_grams d + 9 * fat_grams d - d : ℤ) : ℚ)|
      ≤ ((8 : ℤ) : ℚ) + 1 / 2 := by
    unfold protein_grams carb_grams fat_grams
    rw [abs_le]
    push_cast
    constructor <;> linarith [h1.1, h1.2, h2.1, h2.2, h3.1, h3.2]
  exact int_abs_le_of_rat_le _ 8 hq

/-- C6: the recommendation list is exactly the smoking pair (if smoking is
the affirmed value), then the drinking pair (if drinking is affirmed), then
the single age info message (one when age < 25 or age > 40, none when
25 ≤ age ≤ 40); it is empty when none apply. -/
theorem lifestyle_recommendations_spec (ud : UserData) :
    get_lifestyle_recommendations ud =
      (if ud.smoking = "yes" then
         [⟨"warning", smoking_warning⟩, ⟨"advice", smoking_advice⟩]
       else []) ++
      (if ud.drinking = "yes" then
         [⟨"warning", drinking_warning⟩, ⟨"advice", drinking_advice⟩]
       else []) ++
      (if ud.age < 25 then [⟨"info", young_age_info⟩]
       else if 40 < ud.age then [⟨"info", older_age_info⟩]
       else [])
    ∧ (25 ≤ ud.age → ud.age ≤ 40 →
        (get_lifestyle_recommendations ud).filter (fun r => r.type == "info") = [])
    ∧ ((ud.age < 25 ∨ 40 < ud.age) →
        ((get_lifestyle_recommendations ud).filter (fun r => r.type == "info")).length = 1)
    ∧ (ud.smoking ≠ "yes" → ud.drinking ≠ "yes" → 25 ≤ ud.age → ud.age ≤ 40 →
        get_lifestyle_recommendations ud = []) := by
  refine ⟨rfl, ?_, ?_, ?_⟩
  · intro h1 h2
    unfold get_lifestyle_recommendations
    rw [if_neg (by omega : ¬ ud.age < 25), if_neg (by omega : ¬ 40 < ud.age)]
    simp only [List.filter_append]
    split_ifs <;> rfl
  · intro h
    unfold get_lifestyle_recommendations
    simp only [List.filter_append, List.length_append]
    rcases h with h | h
    · rw [if_pos h]
      split_ifs <;> rfl
    · rw [if_neg (by omega : ¬ ud.age < 25), if_pos h]
      split_ifs <;> rfl
  · intro hs hd h1 h2
    unfold get_lifestyle_recommendations
    rw [if_neg hs, if_neg hd, if_neg (by omega : ¬ ud.age < 25),
      if_neg (by omega : ¬ 40 < ud.age)]
    rfl

/-- Witness for C6: the sample profile (non-smoker, non-drinker, age 30)
gets an empty recommendation list. -/
theorem lifestyle_recommendations_spec_witness :
    get_lifestyle_recommendations sample_user = [] :=
  (lifestyle_recommendations_spec sample_user).2.2.2
    (by decide) (by decide) (by decide) (by decide)

/-- C9: the smoking and drinking entries appear exactly when the profile
field is the lowercase string yes; a capitalised Yes or YES produces no
entries, whereas calculate_bmr compares the gender case-insensitively, so a
capitalised MALE still selects the male formula. -/
theorem lifestyle_flags_exact_yes :
    (∀ ud : UserData,
      (Recommendation.mk "warning" smoking_warning ∈ get_lifestyle_recommendations ud
        ↔ ud.smoking = "yes")
      ∧ (Recommendation.mk "advice" smoking_advice ∈ get_lifestyle_recommendations ud
        ↔ ud.smoking = "yes")
      ∧ (Recommendation.mk "warning" drinking_warning ∈ get_lifestyle_recommendations ud
        ↔ ud.drinking = "yes")
      ∧ (Recommendation.mk "advice" drinking_advice ∈ get_lifestyle_recommendations ud
        ↔ ud.drinking = "yes"))
    ∧ get_lifestyle_recommendations ⟨"A", 30, "male", 70, 175, "Yes", "YES"⟩ = []
    ∧ calculate_bmr 70 175 30 "MALE" = calculate_bmr 70 175 30 "male" := by
  refine ⟨?_, by decide, ?_⟩
  · intro ud
    unfold get_lifestyle_recommendations
    split_ifs <;>
      simp_all [smoking_warning, smoking_advice, drinking_warning, drinking_advice,
        young_age_info, older_age_info]
  · have hM : pyLower "MALE" = "male" := by decide
    have hm : pyLower "male" = "male" := by decide
    rw [calculate_bmr, calculate_bmr, if_pos hM, if_pos hm]

/-- C7: whenever some required field of the request body is missing, the
endpoint answers HTTP 400 with success false and an error naming a missing
required field, and no plan is generated (the data field is empty). -/
theorem missing_field_400 (present : List String) (ud : UserData)
    (ch : Nat → Nat) (outcomes : Nat → HFOutcome)
    (h : ∃ f ∈ required_fields, present.contains f = false) :
    ∃ f ∈ required_fields, present.contains f = false ∧
      generate_diet_plan present ud ch outcomes =
        ⟨400, false, some ("Missing required field: " ++ f), none, none⟩ := by
  obtain ⟨f0, hf0, hnp⟩ := h
  have hsome : (required_fields.find? (fun f => ! present.contains f)).isSome := by
    rw [List.find?_isSome]
    exact ⟨f0, hf0, by rw [hnp]; rfl⟩
  obtain ⟨f, hfind⟩ := Option.isSome_iff_exists.mp hsome
  have hmem : f ∈ required_fields := List.mem_of_find?_eq_some hfind
  have hpf := List.find?_some hfind
  refine ⟨f, hmem, by simpa using hpf, ?_⟩
  unfold generate_diet_plan
  rw [hfind]

/-- Witness for C7: a body with every required field except age yields the
400 response naming a missing field. -/
theorem missing_field_400_witness :
    ∃ f ∈ required_fields,
      (["name", "height", "weight", "gender", "smoking", "drinking"] : List String).contains f
          = false ∧
      generate_diet_plan ["name", "height", "weight", "gender", "smoking", "drinking"]
          sample_user zero_stream failed_call =
        ⟨400, false, some ("Missing required field: " ++ f), none, none⟩ :=
  missing_field_400 _ sample_user zero_stream failed_call ⟨"age", by decide, by decide⟩

/-- C5: when the single external call fails (exception, non-200 status, or a
loading indicator in a 200 body), generate_ai_diet_plan returns exactly the
deterministic fallback plan with no AI text field; the result reads only the
first element of the outcome stream (one call, no retry); and the endpoint
still answers HTTP 200 with success true and no error, indistinguishable in
shape from a normal success. -/
theorem ai_failure_fallback (ud : UserData) (ch : Nat → Nat)
    (outcomes : Nat → HFOutcome)
    (hfail : outcomes 0 = .exception
      ∨ (∃ s b, outcomes 0 = .response s b ∧ s ≠ 200)
      ∨ (∃ t, outcomes 0 = .response 200 (.loading t))) :
    generate_ai_diet_plan ud ch outcomes =
      .fallbackOnly (generate_fallback_plan ud
        (calculate_bmr ud.weight ud.height (ud.age : ℚ) ud.gender)
        (calculate_bmi ud.weight ud.height)
        ((get_bmi_category (calculate_bmi ud.weight ud.height)).1)
        (daily_calories_of (calculate_bmr ud.weight ud.height (ud.age : ℚ) ud.gender)) ch)
    ∧ (∀ outcomes2 : Nat → HFOutcome, outcomes2 0 = outcomes 0 →
        generate_ai_diet_plan ud ch outcomes2 = generate_ai_diet_plan ud ch outcomes)
    ∧ (∀ present : List String, (∀ f ∈ required_fields, present.contains f = true) →
        generate_diet_plan present ud ch outcomes =
          ⟨200, true, none,
           some (.fallbackOnly (generate_fallback_plan ud
             (calculate_bmr ud.weight ud.height (ud.age : ℚ) ud.gender)
             (calculate_bmi ud.weight ud.height)
             ((get_bmi_category (calculate_bmi ud.weight ud.height)).1)
             (daily_calories_of (calculate_bmr ud.weight ud.height (ud.age : ℚ) ud.gender)) ch)),
           some "Diet plan generated successfully!"⟩) := by
  have hmain : generate_ai_diet_plan ud ch outcomes =
      .fallbackOnly (generate_fallback_plan ud
        (calculate_bmr ud.weight ud.height (ud.age : ℚ) ud.gender)
        (calculate_bmi ud.weight ud.height)
        ((get_bmi_category (calculate_bmi ud.weight ud.height)).1)
        (daily_calories_of (calculate_bmr ud.weight ud.height (ud.age : ℚ) ud.gender)) ch) := by
    unfold generate_ai_diet_plan
    rcases hfail with h | ⟨s, b, h, hs⟩ | ⟨t, h⟩
    · rw [h]
    · rw [h]
      simp [hs]
    · rw [h]
      simp
  refine ⟨hmain, ?_, ?_⟩
  · intro outcomes2 h2
    unfold generate_ai_diet_plan
    rw [h2]
  · intro present hall
    have hnone : required_fields.find? (fun f => ! present.contains f) = none := by
      rw [List.find?_eq_none]
      intro f hf
      show ¬ (! present.contains f) = true
      rw [hall f hf]
      decide
    unfold generate_diet_plan
    rw [hnone, hmain]

/-- Witness for C5: with an exception from the external call, the sample
profile receives exactly the deterministic fallback plan. -/
theorem ai_failure_fallback_witness :
    generate_ai_diet_plan sample_user zero_stream failed_call =
      .fallbackOnly (generate_fallback_plan sample_user
        (calculate_bmr sample_user.weight sample_user.height
          (sample_user.age : ℚ) sample_user.gender)
        (calculate_bmi sample_user.weight sample_user.height)
        ((get_bmi_category (calculate_bmi sample_user.weight sample_user.height)).1)
        (daily_calories_of (calculate_bmr sample_user.weight sample_user.height
          (sample_user.age : ℚ) sample_user.gender))
        zero_stream) :=
  (ai_failure_fallback sample_user zero_stream failed_call (Or.inl rfl)).1

/-- C8: the weekly plan maps exactly the seven canonical weekday names, in
order, each to an independently generated day (disjoint slices of the random
stream), and every day has exactly the five named slots, each a description
and calorie pair. -/
theorem weekly_plan_structure (ud : UserData) (bmr : ℤ) (bmi : ℚ)
    (bmi_category : String) (daily_calories : ℤ) (ch : Nat → Nat) :
    (generate_fallback_plan ud bmr bmi bmi_category daily_calories ch).weekly_plan =
      [("Monday", generate_daily_meals daily_calories (fun k => ch (0 + k))),
       ("Tuesday", generate_daily_meals daily_calories (fun k => ch (5 + k))),
       ("Wednesday", generate_daily_meals daily_calories (fun k => ch (10 + k))),
       ("Thursday", generate_daily_meals daily_calories (fun k => ch (15 + k))),
       ("Friday", generate_daily_meals daily_calories (fun k => ch (20 + k))),
       ("Saturday", generate_daily_meals daily_calories (fun k => ch (25 + k))),
       ("Sunday", generate_daily_meals daily_calories (fun k => ch (30 + k)))]
    ∧ (generate_fallback_plan ud bmr bmi bmi_category daily_calories ch).weekly_plan.map
        Prod.fst = days
    ∧ (generate_fallback_plan ud bmr bmi bmi_category daily_calories ch).weekly_plan.length = 7
    ∧ ∀ p ∈ (generate_fallback_plan ud bmr bmi bmi_category daily_calories ch).weekly_plan,
        p.2.slots.map Prod.fst =
          ["breakfast", "morning_snack", "lunch", "afternoon_snack", "dinner"]
        ∧ p.2.slots.length = 5 := by
  refine ⟨rfl, rfl, rfl, ?_⟩
  intro p hp
  simp only [generate_fallback_plan, build_weekly_plan, days, List.mem_cons,
    List.not_mem_nil, or_false] at hp
  rcases hp with h | h | h | h | h | h | h <;> subst h <;> exact ⟨rfl, rfl⟩

/-- C10: the five calorie values of a generated day are a function of
dailyCalories alone, unchanged under any random draws, and every
description is drawn from its slot's fixed four-option list, the snack list
serving both snack slots. -/
theorem day_calories_independent_of_randomness :
    (∀ (d : ℤ) (ch1 ch2 : Nat → Nat),
      dayCalories (generate_daily_meals d ch1) = dayCalories (generate_daily_meals d ch2))
    ∧ (∀ (d : ℤ) (ch : Nat → Nat),
        (generate_daily_meals d ch).breakfast.meal ∈ breakfast_options
        ∧ (generate_daily_meals d ch).morning_snack.meal ∈ snack_options
        ∧ (generate_daily_meals d ch).lunch.meal ∈ lunch_options
        ∧ (generate_daily_meals d ch).afternoon_snack.meal ∈ snack_options
        ∧ (generate_daily_meals d ch).dinner.meal ∈ dinner_options) :=
  ⟨fun _ _ _ => rfl,
   fun _ ch =>
     ⟨choiceAt_mem ch 0 breakfast_options (by decide),
      choiceAt_mem ch 1 snack_options (by decide),
      choiceAt_mem ch 2 lunch_options (by decide),
      choiceAt_mem ch 3 snack_options (by decide),
      choiceAt_mem ch 4 dinner_options (by decide)⟩⟩

/-- Witness for C8: on a concrete plan the weekday keys are the seven
canonical names and the Monday entry has the five named slots. -/
theorem weekly_plan_structure_witness :
    (generate_fallback_plan sample_user 1696 22.9 "Normal Weight" 2544
        zero_stream).weekly_plan.map Prod.fst = days
    ∧ (("Monday", generate_daily_meals 2544 (fun k => zero_stream (0 + k))) :
        String × DailyMeals).2.slots.map Prod.fst =
        ["breakfast", "morning_snack", "lunch", "afternoon_snack", "dinner"] :=
  ⟨(weekly_plan_structure sample_user 1696 22.9 "Normal Weight" 2544 zero_stream).2.1,
   ((weekly_plan_structure sample_user 1696 22.9 "Normal Weight" 2544 zero_stream).2.2.2
      ("Monday", generate_daily_meals 2544 (fun k => zero_stream (0 + k)))
      (by
        rw [(weekly_plan_structure sample_user 1696 22.9 "Normal Weight" 2544
          zero_stream).1]
        exact List.mem_cons_self _ _)).1⟩
